import Mathlib

/-!
Verification of the gift-finder application core (src/src/App.jsx).

The development shallowly embeds the pieces of `App.jsx` that carry the
reusable logic: the Link Rewriter `processRetailerLink`, the Prompt Builder
clauses of `fetchGiftSuggestions` and `generateCardMessage`, the Suggestion
Orchestrator success and failure paths, and the History Tracker
(`goBackInHistory`, `goForwardInHistory`, and the history push performed on a
successful fetch).  JavaScript strings are modelled as Lean `String`
(well-formed Unicode), JavaScript truthiness of a string field as
non-emptiness, and the browser URL constructor as the executable `parseURL`
model documented below.
-/

namespace GiftFinder

/-- Whitespace recognised by the model of the JavaScript `trim` method
(ASCII whitespace characters). -/
def isJsSpace (c : Char) : Bool :=
  c = ' ' || c = '\t' || c = '\n' || c = '\r' || c = Char.ofNat 11 || c = Char.ofNat 12

/-- Model of the JavaScript `String.prototype.trim` used in the guard of
`processRetailerLink` (line 118 of App.jsx): strip leading and trailing
whitespace. -/
def jsTrim (s : String) : String :=
  String.mk (((s.toList.dropWhile isJsSpace).reverse.dropWhile isJsSpace).reverse)

/-- `startsWithChars l pat` is true when `pat` is an initial segment of `l`. -/
def startsWithChars : List Char → List Char → Bool
  | _, [] => true
  | [], _ :: _ => false
  | c :: cs, d :: ds => c = d && startsWithChars cs ds

/-- `containsChars l pat` is true when `pat` occurs contiguously inside `l`. -/
def containsChars : List Char → List Char → Bool
  | [], pat => startsWithChars [] pat
  | l@(_ :: cs), pat => startsWithChars l pat || containsChars cs pat

/-- Model of the JavaScript `String.prototype.includes`, used by the retailer
dispatch of `processRetailerLink` (lines 135-142 of App.jsx). -/
def strIncludes (s sub : String) : Bool :=
  containsChars s.toList sub.toList

/-- UTF-8 bytes of a character, as byte values. -/
def utf8BytesOfChar (c : Char) : List Nat :=
  let n := c.toNat
  if n < 0x80 then [n]
  else if n < 0x800 then [0xC0 + n / 0x40, 0x80 + n % 0x40]
  else if n < 0x10000 then
    [0xE0 + n / 0x1000, 0x80 + (n / 0x40) % 0x40, 0x80 + n % 0x40]
  else
    [0xF0 + n / 0x40000, 0x80 + (n / 0x1000) % 0x40, 0x80 + (n / 0x40) % 0x40,
     0x80 + n % 0x40]

/-- Upper-case hexadecimal digit for a value below 16. -/
def hexDigitChar (n : Nat) : Char :=
  if n < 10 then Char.ofNat (48 + n) else Char.ofNat (55 + n)

/-- Percent-encoding of one byte value. -/
def percentEncodeByte (b : Nat) : List Char :=
  ['%', hexDigitChar (b / 16), hexDigitChar (b % 16)]

/-- Characters left unescaped by the JavaScript `encodeURIComponent`:
letters, digits, and `- _ . ! ~ * ( )` together with the apostrophe
(written as `Char.ofNat 39`). -/
def isUnreservedUriChar (c : Char) : Bool :=
  ('A' ≤ c && c ≤ 'Z') || ('a' ≤ c && c ≤ 'z') || ('0' ≤ c && c ≤ '9') ||
    (c ∈ ['-', '_', '.', '!', '~', '*', Char.ofNat 39, '(', ')'])

/-- Model of the JavaScript `encodeURIComponent` used to build the search
term in `processRetailerLink` (line 123 of App.jsx). -/
def encodeURIComponent (s : String) : String :=
  String.mk ((s.toList.map (fun c =>
    if isUnreservedUriChar c then [c]
    else ((utf8BytesOfChar c).map percentEncodeByte).flatten)).flatten)

/-- Result of URL parsing: the only field the Link Rewriter reads is the
hostname. -/
structure URLParts where
  hostname : String
deriving DecidableEq, Repr

/-- First character allowed in a URL scheme. -/
def isSchemeStartChar (c : Char) : Bool :=
  ('A' ≤ c && c ≤ 'Z') || ('a' ≤ c && c ≤ 'z')

/-- Characters allowed within a URL scheme. -/
def isSchemeChar (c : Char) : Bool :=
  isSchemeStartChar c || ('0' ≤ c && c ≤ '9') || c = '+' || c = '-' || c = '.'

/-- Consume the scheme of a URL up to and including the colon, returning the
remainder; fails when a non-scheme character appears before any colon. -/
def dropSchemeChars : List Char → Option (List Char)
  | [] => none
  | c :: rest =>
    if c = ':' then some rest
    else if isSchemeChar c then dropSchemeChars rest
    else none

/-- Characters terminating the authority component of a URL. -/
def hostEndChar (c : Char) : Bool :=
  c = '/' || c = '?' || c = '#'

/-- Characters of `l` after its last `@`, or all of `l` when it has none
(used to discard URL userinfo). -/
def afterLastAt (l : List Char) : List Char :=
  l.foldl (fun acc c => if c = '@' then [] else acc ++ [c]) []

/-- Executable model of the browser WHATWG URL constructor (`new URL`), which
is the platform primitive called by `processRetailerLink` (line 126 of
App.jsx) and is not part of this repository.  The model covers the inputs the
application deals in: the input is trimmed; a string without a syntactically
valid `scheme:` prefix fails to parse (e.g. `"not a url"`); after
`scheme://` the hostname is the authority with userinfo and port removed,
lower-cased; scheme-only URLs without `//` parse with an empty hostname.
IPv6 host literals, percent-encoded hosts and further special-scheme quirks
are outside the model. -/
def parseURL (s : String) : Option URLParts :=
  match (jsTrim s).toList with
  | [] => none
  | c :: rest =>
    if isSchemeStartChar c then
      match dropSchemeChars (c :: rest) with
      | none => none
      | some afterScheme =>
        match afterScheme with
        | '/' :: '/' :: afterSlashes =>
          let authority := afterSlashes.takeWhile (fun d => !hostEndChar d)
          let hostPort := afterLastAt authority
          let host := hostPort.takeWhile (fun d => d ≠ ':')
          if host.isEmpty then none
          else some ⟨String.mk (host.map Char.toLower)⟩
        | _ => some ⟨""⟩
    else none

/-- A JavaScript value passed as the `originalLink` argument: either a string
or some non-string value (the `typeof originalLink !== 'string'` guard of
line 118 of App.jsx treats all non-strings alike). -/
inductive JSValue where
  | str (s : String)
  | nonString
deriving DecidableEq, Repr

/-- The fixed affiliate tag of App.jsx line 80. -/
def AMAZON_ASSOCIATE_TAG : String := "realstory-20"

/-- The fixed list of Amazon country domains of App.jsx lines 129-133. -/
def amazonDomains : List String :=
  ["amazon.com", "amazon.co.uk", "amazon.ca", "amazon.de",
   "amazon.fr", "amazon.it", "amazon.es", "amazon.co.jp",
   "amazon.com.au", "amazon.in"]

/-- All retailer domains the dispatch of `processRetailerLink` tests for. -/
def knownRetailerDomains : List String :=
  amazonDomains ++ ["etsy.com", "target.com", "bestbuy.com"]

/-- The retailer dispatch of `processRetailerLink` on a successfully parsed
hostname (App.jsx lines 127-146): substring tests in priority order Amazon,
Etsy, Target, Best Buy, otherwise pass the original link through. -/
def dispatchRetailerHost (hostname searchTerm originalLink : String) : String :=
  if amazonDomains.any (fun domain => strIncludes hostname domain) then
    "https://" ++ hostname ++ "/s?k=" ++ searchTerm ++ "&tag=" ++ AMAZON_ASSOCIATE_TAG
  else if strIncludes hostname "etsy.com" then
    "https://www.etsy.com/search?q=" ++ searchTerm
  else if strIncludes hostname "target.com" then
    "https://www.target.com/s?searchTerm=" ++ searchTerm
  else if strIncludes hostname "bestbuy.com" then
    "https://www.bestbuy.com/site/searchpage.jsp?st=" ++ searchTerm
  else originalLink

/-- The Link Rewriter `processRetailerLink` of App.jsx lines 117-151.  A
non-string or blank link yields the sentinel `"#"`; a link that fails URL
parsing yields `"#"` (the `catch` branch); otherwise the retailer dispatch
runs on the parsed hostname.  The function is total: the never-raises part of
the contract is captured by the URL-parse failure being an explicit `Option`
case handled to the sentinel. -/
def processRetailerLink (originalLink : JSValue) (giftName : String) : String :=
  match originalLink with
  | .nonString => "#"
  | .str s =>
    if jsTrim s = "" then "#"
    else
      let searchTerm := encodeURIComponent giftName
      match parseURL s with
      | none => "#"
      | some url => dispatchRetailerHost url.hostname searchTerm s

/-- The user-supplied Criteria record (App.jsx lines 59-66): eight optional
string fields, where a JavaScript-falsy (empty) string denotes an absent
field. -/
structure Criteria where
  occasion : String
  relationship : String
  age : String
  gender : String
  interests : String
  notableEvents : String
  minPrice : String
  maxPrice : String
deriving DecidableEq, Repr

/-- The price-range clause of `fetchGiftSuggestions` (App.jsx lines
202-205). -/
def priceRangeString (minPrice maxPrice : String) : String :=
  if minPrice ≠ "" ∧ maxPrice ≠ "" then "between $" ++ minPrice ++ " and $" ++ maxPrice
  else if minPrice ≠ "" then "above $" ++ minPrice
  else if maxPrice ≠ "" then "up to $" ++ maxPrice
  else ""

/-- The guarded push of the price clause (App.jsx line 214): the clause is
appended to the prompt parts exactly when `priceRangeString` is truthy. -/
def pricePart (minPrice maxPrice : String) : List String :=
  if priceRangeString minPrice maxPrice = "" then []
  else ["The price range should be " ++ priceRangeString minPrice maxPrice ++ "."]

/-- The prompt parts assembled by `fetchGiftSuggestions` (App.jsx lines
207-214), one conditional push per field in source order. -/
def buildGiftPromptParts (c : Criteria) : List String :=
  let parts := ["I need a gift suggestion for someone."]
  let parts := if c.occasion = "" then parts else
    parts ++ ["The occasion is " ++ c.occasion ++ "."]
  let parts := if c.relationship = "" then parts else
    parts ++ ["They are my " ++ c.relationship ++ "."]
  let parts := if c.age = "" then parts else
    parts ++ ["They are " ++ c.age ++ " years old."]
  let parts := if c.gender = "" then parts else
    parts ++ ["Their gender is " ++ c.gender ++ "."]
  let parts := if c.notableEvents = "" then parts else
    parts ++ ["Notable events in their life include " ++ c.notableEvents ++ "."]
  let parts := if c.interests = "" then parts else
    parts ++ ["They are interested in " ++ c.interests ++ "."]
  parts ++ pricePart c.minPrice c.maxPrice

/-- The prompt parts assembled by `generateCardMessage` (App.jsx lines
265-271), one conditional push per field in source order; note the source
pushes the interests clause before the notable-events clause here, and never
consults the price fields. -/
def buildCardPromptParts (c : Criteria) : List String :=
  let parts := ["Write a heartfelt and creative gift card message or a short poem."]
  let parts := if c.occasion = "" then parts else
    parts ++ ["The occasion is " ++ c.occasion ++ "."]
  let parts := if c.relationship = "" then parts else
    parts ++ ["The recipient is my " ++ c.relationship ++ "."]
  let parts := if c.age = "" then parts else
    parts ++ ["They are " ++ c.age ++ " years old."]
  let parts := if c.gender = "" then parts else
    parts ++ ["Their gender is " ++ c.gender ++ "."]
  let parts := if c.interests = "" then parts else
    parts ++ ["They are interested in " ++ c.interests ++ "."]
  let parts := if c.notableEvents = "" then parts else
    parts ++ ["They have been busy with " ++ c.notableEvents ++ "."]
  parts

/-- One gift suggestion parsed from the structured API response (the schema
of App.jsx lines 219-230 fixes three string properties). -/
structure GiftIdea where
  name : String
  description : String
  purchaseLink : String
deriving DecidableEq, Repr, Inhabited

/-- The per-entry processing of App.jsx lines 235-238: keep the entry and
replace its `purchaseLink` by the Link Rewriter output for
`(purchaseLink, name)`. -/
def rewriteGift (g : GiftIdea) : GiftIdea :=
  { g with purchaseLink := processRetailerLink (.str g.purchaseLink) g.name }

/-- The JSON payload obtained from a successful gateway call with the
structured schema: either an array of gift objects or some non-array JSON
value (the code only tests `Array.isArray`, App.jsx line 234). -/
inductive ParsedJSON where
  | arr (gifts : List GiftIdea)
  | nonArray
deriving DecidableEq, Repr

/-- Outcome of the awaited gateway call of `fetchGiftSuggestions`: a parsed
payload, or a rejection carrying the error message (transport error,
non-success status, or missing content, App.jsx lines 179-191). -/
inductive GatewayOutcome where
  | success (json : ParsedJSON)
  | failure (msg : String)
deriving DecidableEq, Repr

/-- Outcome of the awaited gateway call of `generateCardMessage`. -/
inductive MsgOutcome where
  | success (msg : String)
  | failure (msg : String)
deriving DecidableEq, Repr

/-- The application state touched by the orchestrator and History Tracker
(App.jsx lines 69-77). -/
structure AppState where
  giftIdeas : List GiftIdea
  isLoading : Bool
  error : Option String
  cardMessage : String
  isGeneratingMessage : Bool
  giftIdeasHistory : List (List GiftIdea)
  historyIndex : Int
deriving DecidableEq, Repr

/-- The initial state of App.jsx lines 69-77: no results, no error, empty
history, cursor `-1`. -/
def initialState : AppState :=
  { giftIdeas := []
    isLoading := false
    error := none
    cardMessage := ""
    isGeneratingMessage := false
    giftIdeasHistory := []
    historyIndex := -1 }

/-- The history push of App.jsx lines 240-244: truncate the history to the
entries up to the cursor (`slice(0, historyIndex + 1)`), append the new
entry, and advance the cursor; returns the new history and new cursor. -/
def historyPush (hist : List (List GiftIdea)) (idx : Int) (entry : List GiftIdea) :
    List (List GiftIdea) × Int :=
  (hist.take (idx + 1).toNat ++ [entry], idx + 1)

/-- The state transition of one complete `fetchGiftSuggestions` run (App.jsx
lines 197-255) given the gateway outcome.  Entry to the fetch clears the
results and the error and sets the loading flag; the `finally` clears the
loading flag again, so the net transition is recorded per outcome:
an array payload is truncated to 5 entries, link-rewritten, published and
pushed onto the history; a non-array payload sets the shape error; a
rejection sets the formatted failure message. -/
def fetchGiftSuggestions (s : AppState) (outcome : GatewayOutcome) : AppState :=
  match outcome with
  | .success (.arr gifts) =>
    let processedGiftIdeas := (gifts.take 5).map rewriteGift
    let pushed := historyPush s.giftIdeasHistory s.historyIndex processedGiftIdeas
    { s with giftIdeas := processedGiftIdeas
             error := none
             isLoading := false
             giftIdeasHistory := pushed.1
             historyIndex := pushed.2 }
  | .success .nonArray =>
    { s with giftIdeas := []
             error := some "Received unexpected data format from API. Please try again."
             isLoading := false }
  | .failure msg =>
    { s with giftIdeas := []
             error := some ("Failed to fetch gift suggestions: " ++ msg ++ ". Please try again.")
             isLoading := false }

/-- The state transition of one complete `generateCardMessage` run (App.jsx
lines 260-286): it writes only the card message, the generating flag and the
error, never the gift ideas or the history. -/
def generateCardMessage (s : AppState) (outcome : MsgOutcome) : AppState :=
  match outcome with
  | .success m =>
    { s with cardMessage := m, error := none, isGeneratingMessage := false }
  | .failure m =>
    { s with cardMessage := "Error generating message. Please try again."
             error := some ("Failed to generate card message: " ++ m ++ ".")
             isGeneratingMessage := false }

/-- `goBackInHistory` of App.jsx lines 291-298: when the cursor is positive,
decrement it, republish the entry at the new cursor, and clear the error;
otherwise do nothing. -/
def goBackInHistory (s : AppState) : AppState :=
  if 0 < s.historyIndex then
    { s with historyIndex := s.historyIndex - 1
             giftIdeas := s.giftIdeasHistory.getD (s.historyIndex - 1).toNat []
             error := none }
  else s

/-- `goForwardInHistory` of App.jsx lines 303-310: when the cursor is before
the last index, increment it, republish the entry at the new cursor, and
clear the error; otherwise do nothing. -/
def goForwardInHistory (s : AppState) : AppState :=
  if s.historyIndex < (s.giftIdeasHistory.length : Int) - 1 then
    { s with historyIndex := s.historyIndex + 1
             giftIdeas := s.giftIdeasHistory.getD (s.historyIndex + 1).toNat []
             error := none }
  else s

/-- One user-triggered operation on the application state. -/
inductive Op where
  | fetch (outcome : GatewayOutcome)
  | generateMessage (outcome : MsgOutcome)
  | back
  | forward
deriving DecidableEq, Repr

/-- Apply one operation to the state. -/
def applyOp (s : AppState) (op : Op) : AppState :=
  match op with
  | .fetch outcome => fetchGiftSuggestions s outcome
  | .generateMessage outcome => generateCardMessage s outcome
  | .back => goBackInHistory s
  | .forward => goForwardInHistory s

/-- Run a sequence of operations from a state. -/
def runOps (s : AppState) (ops : List Op) : AppState :=
  ops.foldl applyOp s

/-- A state the application can be in: reachable from the initial state by
some sequence of operations. -/
def Reachable (s : AppState) : Prop :=
  ∃ ops : List Op, s = runOps initialState ops

/-- Structural History Tracker invariant: the cursor stays within
`[-1, length - 1]` (with `-1` only possible while it is `-1` from the
start). -/
def StateInv (s : AppState) : Prop :=
  -1 ≤ s.historyIndex ∧ s.historyIndex < (s.giftIdeasHistory.length : Int)

theorem stateInv_initial : StateInv initialState := by
  constructor <;> simp [initialState, StateInv]

theorem stateInv_applyOp (s : AppState) (op : Op) (h : StateInv s) :
    StateInv (applyOp s op) := by
  obtain ⟨h1, h2⟩ := h
  cases op with
  | fetch outcome =>
    cases outcome with
    | success json =>
      cases json with
      | arr gifts =>
        refine ⟨?_, ?_⟩
        · show -1 ≤ s.historyIndex + 1
          omega
        · show s.historyIndex + 1 <
            ((s.giftIdeasHistory.take (s.historyIndex + 1).toNat ++
              [(gifts.take 5).map rewriteGift]).length : Int)
          simp only [List.length_append, List.length_take, List.length_cons,
            List.length_nil]
          push_cast
          omega
      | nonArray => exact ⟨h1, h2⟩
    | failure msg => exact ⟨h1, h2⟩
  | generateMessage outcome =>
    cases outcome with
    | success m => exact ⟨h1, h2⟩
    | failure m => exact ⟨h1, h2⟩
  | back =>
    simp only [applyOp, goBackInHistory]
    split
    · refine ⟨?_, ?_⟩
      · show -1 ≤ s.historyIndex - 1
        omega
      · show s.historyIndex - 1 < (s.giftIdeasHistory.length : Int)
        omega
    · exact ⟨h1, h2⟩
  | forward =>
    simp only [applyOp, goForwardInHistory]
    split
    · next hlt =>
      refine ⟨?_, ?_⟩
      · show -1 ≤ s.historyIndex + 1
        omega
      · show s.historyIndex + 1 < (s.giftIdeasHistory.length : Int)
        omega
    · exact ⟨h1, h2⟩

theorem stateInv_runOps (ops : List Op) (s : AppState) (h : StateInv s) :
    StateInv (runOps s ops) := by
  induction ops generalizing s with
  | nil => exact h
  | cons op rest ih => exact ih (applyOp s op) (stateInv_applyOp s op h)

theorem stateInv_of_reachable (s : AppState) (h : Reachable s) : StateInv s := by
  obtain ⟨ops, rfl⟩ := h
  exact stateInv_runOps ops initialState stateInv_initial

/-! Helper lemmas about the Link Rewriter. -/

theorem parseURL_of_trim_empty (s : String) (h : jsTrim s = "") :
    parseURL s = none := by
  unfold parseURL
  rw [h]
  rfl

theorem trim_ne_empty_of_parsed (s : String) (u : URLParts)
    (h : parseURL s = some u) : ¬ jsTrim s = "" := by
  intro he
  rw [parseURL_of_trim_empty s he] at h
  exact Option.noConfusion h

theorem processRetailerLink_parsed (s name hostname : String)
    (h : parseURL s = some ⟨hostname⟩) :
    processRetailerLink (.str s) name =
      dispatchRetailerHost hostname (encodeURIComponent name) s := by
  simp only [processRetailerLink]
  rw [if_neg (trim_ne_empty_of_parsed s ⟨hostname⟩ h)]
  simp only [h]

theorem parsed_link_ne_hash (s : String) (u : URLParts)
    (h : parseURL s = some u) : s ≠ "#" := by
  intro he
  subst he
  rw [show parseURL "#" = none from rfl] at h
  exact Option.noConfusion h

theorem dispatchRetailerHost_ne_hash (hostname term link : String)
    (hlink : link ≠ "#") : dispatchRetailerHost hostname term link ≠ "#" := by
  have hhash : ("#" : String).length = 1 := rfl
  unfold dispatchRetailerHost
  split_ifs with h1 h2 h3 h4
  · intro heq
    have hlen := congrArg String.length heq
    rw [hhash] at hlen
    simp only [String.length_append] at hlen
    rw [show ("https://" : String).length = 8 from rfl] at hlen
    omega
  · intro heq
    have hlen := congrArg String.length heq
    rw [hhash] at hlen
    simp only [String.length_append] at hlen
    rw [show ("https://www.etsy.com/search?q=" : String).length = 30 from rfl] at hlen
    omega
  · intro heq
    have hlen := congrArg String.length heq
    rw [hhash] at hlen
    simp only [String.length_append] at hlen
    rw [show ("https://www.target.com/s?searchTerm=" : String).length = 36 from rfl] at hlen
    omega
  · intro heq
    have hlen := congrArg String.length heq
    rw [hhash] at hlen
    simp only [String.length_append] at hlen
    rw [show ("https://www.bestbuy.com/site/searchpage.jsp?st=" : String).length = 47 from rfl]
      at hlen
    omega
  · exact hlink

theorem startsWithChars_refl (l : List Char) : startsWithChars l l = true := by
  induction l with
  | nil => rfl
  | cons c cs ih => simp [startsWithChars, ih]

theorem strIncludes_self (s : String) : strIncludes s s = true := by
  unfold strIncludes
  cases h : s.toList with
  | nil => rfl
  | cons c cs => simp [containsChars, startsWithChars_refl]

/-! The claims about the Link Rewriter. -/

/-- C4.  The Link Rewriter `processRetailerLink` is a total function (its
URL-parse failure mode is an explicit `Option` case absorbed to the
sentinel, so nothing is raised to the caller), and it returns the sentinel
`"#"` exactly when the original link is a non-string value, the empty
string, or a string that fails URL parsing. -/
theorem c4_sentinel_iff (v : JSValue) (giftName : String) :
    processRetailerLink v giftName = "#" ↔
      v = JSValue.nonString ∨
        ∃ s, v = JSValue.str s ∧ (s = "" ∨ parseURL s = none) := by
  cases v with
  | nonString => simp [processRetailerLink]
  | str s =>
    simp only [processRetailerLink]
    by_cases htrim : jsTrim s = ""
    · rw [if_pos htrim]
      simp [parseURL_of_trim_empty s htrim]
    · rw [if_neg htrim]
      cases hp : parseURL s with
      | none => simp [hp]
      | some u =>
        simp only [hp]
        constructor
        · intro heq
          exact absurd heq (dispatchRetailerHost_ne_hash u.hostname
            (encodeURIComponent giftName) s (parsed_link_ne_hash s u hp))
        · intro hrhs
          rcases hrhs with h | ⟨t, ht, hcase⟩
          · exact absurd h (by simp)
          · obtain rfl : s = t := by injection ht
            rcases hcase with rfl | hnone
            · exact absurd (show jsTrim "" = "" from rfl) htrim
            · rw [hp] at hnone
              exact Option.noConfusion hnone

/-- C5.  Whenever the parsed hostname of the link is (exactly) one of the
fixed Amazon country domains, the Link Rewriter returns
`https://<hostname>/s?k=<urlencoded giftName>` with the fixed affiliate tag
appended — with no further assumption on the rest of the link string, so the
Amazon case takes priority even when `etsy`/`target` substrings occur
elsewhere in the URL (the dispatch consults only the hostname, and the
Amazon test comes first). -/
theorem c5_amazon_priority (link giftName hostname : String)
    (hparse : parseURL link = some ⟨hostname⟩)
    (hmem : hostname ∈ amazonDomains) :
    processRetailerLink (.str link) giftName =
      "https://" ++ hostname ++ "/s?k=" ++ encodeURIComponent giftName ++
        "&tag=" ++ AMAZON_ASSOCIATE_TAG := by
  have hany : (amazonDomains.any fun domain => strIncludes hostname domain) = true :=
    List.any_eq_true.mpr ⟨hostname, hmem, strIncludes_self hostname⟩
  rw [processRetailerLink_parsed link giftName hostname hparse]
  unfold dispatchRetailerHost
  rw [if_pos hany]

/-- C6.  A successfully parsed link whose hostname contains none of the known
retailer domains (the Amazon country domains, `etsy.com`, `target.com`,
`bestbuy.com`, which is exactly how the code tests "matches") is returned
unchanged, for any gift name. -/
theorem c6_passthrough (link giftName hostname : String)
    (hparse : parseURL link = some ⟨hostname⟩)
    (hnone : ∀ d ∈ knownRetailerDomains, strIncludes hostname d = false) :
    processRetailerLink (.str link) giftName = link := by
  have hamazon : (amazonDomains.any fun domain => strIncludes hostname domain) = false := by
    rw [List.any_eq_false]
    intro d hd
    have hmem : d ∈ knownRetailerDomains := by
      unfold knownRetailerDomains
      exact List.mem_append_left _ hd
    simp [hnone d hmem]
  have hetsy := hnone "etsy.com" (by decide)
  have htarget := hnone "target.com" (by decide)
  have hbestbuy := hnone "bestbuy.com" (by decide)
  rw [processRetailerLink_parsed link giftName hostname hparse]
  unfold dispatchRetailerHost
  rw [if_neg (by simp [hamazon]), if_neg (by simp [hetsy]),
    if_neg (by simp [htarget]), if_neg (by simp [hbestbuy])]

/-- C10.  Retailer dispatch is by substring containment on the parsed
hostname, in priority order: a hostname containing an Amazon domain anywhere
(e.g. `amazon.com.evil.example`) is rewritten to the Amazon search URL built
on the full original hostname with the affiliate tag; otherwise a hostname
containing `etsy.com`, then `target.com`, then `bestbuy.com` is rewritten to
the respective fixed search URL rather than passed through. -/
theorem c10_substring_dispatch (link giftName hostname : String)
    (hparse : parseURL link = some ⟨hostname⟩) :
    ((amazonDomains.any fun domain => strIncludes hostname domain) = true →
      processRetailerLink (.str link) giftName =
        "https://" ++ hostname ++ "/s?k=" ++ encodeURIComponent giftName ++
          "&tag=" ++ AMAZON_ASSOCIATE_TAG)
  ∧ ((amazonDomains.any fun domain => strIncludes hostname domain) = false →
      strIncludes hostname "etsy.com" = true →
      processRetailerLink (.str link) giftName =
        "https://www.etsy.com/search?q=" ++ encodeURIComponent giftName)
  ∧ ((amazonDomains.any fun domain => strIncludes hostname domain) = false →
      strIncludes hostname "etsy.com" = false →
      strIncludes hostname "target.com" = true →
      processRetailerLink (.str link) giftName =
        "https://www.target.com/s?searchTerm=" ++ encodeURIComponent giftName)
  ∧ ((amazonDomains.any fun domain => strIncludes hostname domain) = false →
      strIncludes hostname "etsy.com" = false →
      strIncludes hostname "target.com" = false →
      strIncludes hostname "bestbuy.com" = true →
      processRetailerLink (.str link) giftName =
        "https://www.bestbuy.com/site/searchpage.jsp?st=" ++
          encodeURIComponent giftName) := by
  rw [processRetailerLink_parsed link giftName hostname hparse]
  unfold dispatchRetailerHost
  refine ⟨fun h1 => ?_, fun h1 h2 => ?_, fun h1 h2 h3 => ?_, fun h1 h2 h3 h4 => ?_⟩
  · rw [if_pos h1]
  · rw [if_neg (by simp [h1]), if_pos h2]
  · rw [if_neg (by simp [h1]), if_neg (by simp [h2]), if_pos h3]
  · rw [if_neg (by simp [h1]), if_neg (by simp [h2]), if_neg (by simp [h3]),
      if_pos h4]

/-- Witness for C5 at a concrete input: an `amazon.com` link whose path even
contains `etsy.com` and `target.com` as substrings. -/
theorem c5_amazon_priority_witness :
    processRetailerLink (.str "https://amazon.com/etsy.com/target.com-gift") "Lego" =
      "https://" ++ "amazon.com" ++ "/s?k=" ++ encodeURIComponent "Lego" ++
        "&tag=" ++ AMAZON_ASSOCIATE_TAG :=
  c5_amazon_priority "https://amazon.com/etsy.com/target.com-gift" "Lego"
    "amazon.com" (by decide) (by decide)

/-- Witness for C6 at the concrete input of the specification. -/
theorem c6_passthrough_witness :
    processRetailerLink (.str "https://brandsite.example/product/123") "Lego" =
      "https://brandsite.example/product/123" :=
  c6_passthrough "https://brandsite.example/product/123" "Lego"
    "brandsite.example" (by decide) (by decide)

/-- Witness for C10 at the concrete input of the claim: hostname
`amazon.com.evil.example` merely contains `amazon.com` yet is rewritten to an
Amazon search URL on the full hostname. -/
theorem c10_substring_dispatch_witness :
    processRetailerLink (.str "https://amazon.com.evil.example/item") "Lego" =
      "https://" ++ "amazon.com.evil.example" ++ "/s?k=" ++
        encodeURIComponent "Lego" ++ "&tag=" ++ AMAZON_ASSOCIATE_TAG :=
  (c10_substring_dispatch "https://amazon.com.evil.example/item" "Lego"
    "amazon.com.evil.example" (by decide)).1 (by decide)

/-! The claims about the orchestrator and the History Tracker. -/

/-- C1.  A successful fetch whose gateway payload parses to an array
publishes exactly the first `min 5 length` entries in API-returned order,
each with its `purchaseLink` replaced by the Link Rewriter output for
`(purchaseLink, name)`, and appends the published sequence as one new history
entry; on a first fetch (from the initial state) the history length becomes
`1`. -/
theorem c1_publish_and_history (s : AppState) (gifts : List GiftIdea) :
    (fetchGiftSuggestions s (.success (.arr gifts))).giftIdeas.length =
      min 5 gifts.length
  ∧ (∀ i : Nat, i < 5 →
      (fetchGiftSuggestions s (.success (.arr gifts))).giftIdeas.get? i =
        (gifts.get? i).map rewriteGift)
  ∧ (fetchGiftSuggestions s (.success (.arr gifts))).giftIdeasHistory =
      s.giftIdeasHistory.take (s.historyIndex + 1).toNat ++
        [(fetchGiftSuggestions s (.success (.arr gifts))).giftIdeas]
  ∧ (fetchGiftSuggestions initialState (.success (.arr gifts))).giftIdeasHistory.length
      = 1 := by
  refine ⟨?_, ?_, ?_, ?_⟩
  · show ((gifts.take 5).map rewriteGift).length = min 5 gifts.length
    simp [List.length_take]
  · intro i hi
    show ((gifts.take 5).map rewriteGift).get? i = (gifts.get? i).map rewriteGift
    rw [List.get?_map, List.get?_take hi]
  · rfl
  · show (([] : List (List GiftIdea)).take ((-1 : Int) + 1).toNat ++
      [(gifts.take 5).map rewriteGift]).length = 1
    simp

/-- Witness for C1 at a concrete 6-element gateway array fetched from the
initial state: entry 0 is published rewritten and the history length becomes
1. -/
def c1gifts : List GiftIdea :=
  [⟨"G1", "d1", ""⟩, ⟨"G2", "d2", ""⟩, ⟨"G3", "d3", ""⟩,
   ⟨"G4", "d4", ""⟩, ⟨"G5", "d5", ""⟩, ⟨"G6", "d6", ""⟩]

/-- Witness theorem for C1. -/
theorem c1_publish_and_history_witness :
    (fetchGiftSuggestions initialState (.success (.arr c1gifts))).giftIdeas.get? 0 =
      (c1gifts.get? 0).map rewriteGift
  ∧ (fetchGiftSuggestions initialState (.success (.arr c1gifts))).giftIdeasHistory.length
      = 1 :=
  ⟨(c1_publish_and_history initialState c1gifts).2.1 0 (by decide),
   (c1_publish_and_history initialState c1gifts).2.2.2⟩

/-- The concrete history entries of the C2 scenario; their purchase links are
pass-through URLs, so the published entries coincide with the gateway
entries. -/
def c2e1 : List GiftIdea := [⟨"E1", "", "https://brandsite.example/1"⟩]

/-- Second scenario entry for C2. -/
def c2e2 : List GiftIdea := [⟨"E2", "", "https://brandsite.example/2"⟩]

/-- Third scenario entry for C2. -/
def c2e3 : List GiftIdea := [⟨"E3", "", "https://brandsite.example/3"⟩]

/-- Fourth scenario entry for C2. -/
def c2e4 : List GiftIdea := [⟨"E4", "", "https://brandsite.example/4"⟩]

/-- The C2 scenario: push E1, E2, E3 (three successful fetches), back twice,
then push E4. -/
def c2ops : List Op :=
  [.fetch (.success (.arr c2e1)), .fetch (.success (.arr c2e2)),
   .fetch (.success (.arr c2e3)), .back, .back, .fetch (.success (.arr c2e4))]

/-- C2.  For every history state with the cursor in range, the history push
keeps exactly the entries up to the cursor (discarding all entries strictly
beyond it), appends the new entry at the end, and sets the cursor to the new
last index; and the concrete scenario push E1, E2, E3, back, back, push E4
yields the history `[E1, E4]` with the cursor at index 1. -/
theorem c2_push_truncates :
    (∀ (hist : List (List GiftIdea)) (idx : Int) (entry : List GiftIdea),
      -1 ≤ idx → idx < (hist.length : Int) →
        ((historyPush hist idx entry).1.length = (idx + 1).toNat + 1
        ∧ (∀ i : Nat, (i : Int) ≤ idx →
            (historyPush hist idx entry).1.get? i = hist.get? i)
        ∧ (historyPush hist idx entry).1.get? (idx + 1).toNat = some entry
        ∧ (historyPush hist idx entry).2 =
            ((historyPush hist idx entry).1.length : Int) - 1))
  ∧ (runOps initialState c2ops).giftIdeasHistory = [c2e1, c2e4]
  ∧ (runOps initialState c2ops).historyIndex = 1 := by
  refine ⟨?_, by decide, by decide⟩
  intro hist idx entry h1 h2
  have hlen : (hist.take (idx + 1).toNat).length = (idx + 1).toNat := by
    rw [List.length_take]
    omega
  refine ⟨?_, ?_, ?_, ?_⟩
  · show (hist.take (idx + 1).toNat ++ [entry]).length = (idx + 1).toNat + 1
    rw [List.length_append, hlen]
    rfl
  · intro i hi
    show (hist.take (idx + 1).toNat ++ [entry]).get? i = hist.get? i
    have hilt : i < (hist.take (idx + 1).toNat).length := by
      rw [hlen]
      omega
    rw [List.get?_append hilt, List.get?_take (by omega)]
  · show (hist.take (idx + 1).toNat ++ [entry]).get? ((idx + 1).toNat) = some entry
    have hconcat := List.get?_concat_length (hist.take (idx + 1).toNat) entry
    rw [hlen] at hconcat
    exact hconcat
  · show idx + 1 = ((hist.take (idx + 1).toNat ++ [entry]).length : Int) - 1
    rw [List.length_append, hlen, List.length_singleton]
    push_cast
    omega

/-- Witness theorem for C2, applying the universal part at a concrete
one-entry history with the cursor at 0. -/
theorem c2_push_truncates_witness :
    (historyPush [c2e1] 0 c2e4).1.length = ((0 : Int) + 1).toNat + 1
  ∧ (historyPush [c2e1] 0 c2e4).1.get? (((0 : Int) + 1).toNat) = some c2e4 :=
  ⟨(c2_push_truncates.1 [c2e1] 0 c2e4 (by decide) (by decide)).1,
   (c2_push_truncates.1 [c2e1] 0 c2e4 (by decide) (by decide)).2.2.1⟩

/-- The History Tracker display invariant: the published result sequence is
the history entry at the cursor. -/
def displayedMatchesCursor (s : AppState) : Prop :=
  s.giftIdeas = s.giftIdeasHistory.getD s.historyIndex.toNat []

/-- C3.  From every reachable application state, after a push (successful
fetch), after a back navigation (performable exactly when the cursor is
positive — otherwise the code no-ops and the UI disables the button), and
after a forward navigation (performable exactly when the cursor is before the
last index), the displayed result sequence equals the history entry at the
current cursor. -/
theorem c3_cursor_invariant (s : AppState) (hreach : Reachable s) :
    (∀ gifts : List GiftIdea,
      displayedMatchesCursor (fetchGiftSuggestions s (.success (.arr gifts))))
  ∧ (0 < s.historyIndex → displayedMatchesCursor (goBackInHistory s))
  ∧ (s.historyIndex < (s.giftIdeasHistory.length : Int) - 1 →
      displayedMatchesCursor (goForwardInHistory s)) := by
  obtain ⟨h1, h2⟩ := stateInv_of_reachable s hreach
  refine ⟨?_, ?_, ?_⟩
  · intro gifts
    show (gifts.take 5).map rewriteGift =
      (s.giftIdeasHistory.take (s.historyIndex + 1).toNat ++
        [(gifts.take 5).map rewriteGift]).getD (s.historyIndex + 1).toNat []
    have hlen : (s.giftIdeasHistory.take (s.historyIndex + 1).toNat).length =
        (s.historyIndex + 1).toNat := by
      rw [List.length_take]
      omega
    rw [List.getD_append_right _ _ _ _ hlen.le, hlen, Nat.sub_self]
    rfl
  · intro hgt
    unfold displayedMatchesCursor goBackInHistory
    rw [if_pos hgt]
  · intro hlt
    unfold displayedMatchesCursor goForwardInHistory
    rw [if_pos hlt]

/-- The operation sequence for the C3 witness: two successful fetches, so a
back navigation is enabled. -/
def c3ops : List Op :=
  [.fetch (.success (.arr [])), .fetch (.success (.arr []))]

/-- Witness theorem for C3: after two pushes, a back navigation from the
reached state displays the entry at the cursor. -/
theorem c3_cursor_invariant_witness :
    displayedMatchesCursor (goBackInHistory (runOps initialState c3ops)) :=
  (c3_cursor_invariant (runOps initialState c3ops) ⟨c3ops, rfl⟩).2.1 (by decide)

/-- C9.  When the gateway call succeeds but the parsed JSON is not an array,
the orchestrator takes the unexpected-shape path: the user-facing error is
set to the (non-empty) shape message, no entry is pushed to the history, the
cursor is unchanged, and the loading flag returns to false. -/
theorem c9_unexpected_shape (s : AppState) :
    (fetchGiftSuggestions s (.success .nonArray)).error =
      some "Received unexpected data format from API. Please try again."
  ∧ ("Received unexpected data format from API. Please try again." : String) ≠ ""
  ∧ (fetchGiftSuggestions s (.success .nonArray)).giftIdeasHistory =
      s.giftIdeasHistory
  ∧ (fetchGiftSuggestions s (.success .nonArray)).historyIndex = s.historyIndex
  ∧ (fetchGiftSuggestions s (.success .nonArray)).isLoading = false :=
  ⟨rfl, by decide, rfl, rfl, rfl⟩

/-! The claims about the Prompt Builder. -/

/-- C7.  The price clause of the built prompt follows exactly the three
templates — both bounds present, only the minimum, only the maximum — and
when neither bound is present the clause string is empty and the guarded
push `pricePart` (which is what `buildGiftPromptParts` appends) contributes
nothing at all. -/
theorem c7_price_clause (minP maxP : String) :
    (minP ≠ "" → maxP ≠ "" →
      priceRangeString minP maxP = "between $" ++ minP ++ " and $" ++ maxP)
  ∧ (minP ≠ "" → maxP = "" → priceRangeString minP maxP = "above $" ++ minP)
  ∧ (minP = "" → maxP ≠ "" → priceRangeString minP maxP = "up to $" ++ maxP)
  ∧ (minP = "" → maxP = "" →
      priceRangeString minP maxP = "" ∧ pricePart minP maxP = []) := by
  unfold pricePart priceRangeString
  refine ⟨fun h1 h2 => ?_, fun h1 h2 => ?_, fun h1 h2 => ?_, fun h1 h2 => ?_⟩
  · rw [if_pos ⟨h1, h2⟩]
  · rw [if_neg (fun hc => hc.2 h2), if_pos h1]
  · rw [if_neg (fun hc => hc.1 h1), if_neg (fun hne => hne h1), if_pos h2]
  · rw [if_neg (fun hc => hc.1 h1), if_neg (fun hne => hne h1),
      if_neg (fun hne => hne h2)]
    exact ⟨rfl, by simp⟩

/-- Witness theorem for C7, covering all four price-range combinations at
concrete inputs. -/
theorem c7_price_clause_witness :
    priceRangeString "10" "50" = "between $" ++ "10" ++ " and $" ++ "50"
  ∧ priceRangeString "10" "" = "above $" ++ "10"
  ∧ priceRangeString "" "50" = "up to $" ++ "50"
  ∧ (priceRangeString "" "" = "" ∧ pricePart "" "" = []) :=
  ⟨(c7_price_clause "10" "50").1 (by decide) (by decide),
   (c7_price_clause "10" "").2.1 (by decide) rfl,
   (c7_price_clause "" "50").2.2.1 rfl (by decide),
   (c7_price_clause "" "").2.2.2 rfl rfl⟩

/-- Spec-side description of one optional prompt clause: a present (non-empty)
field contributes exactly its clause, an absent field contributes nothing. -/
def clauseIfPresent (field clause : String) : List String :=
  if field = "" then [] else [clause]

/-- The concrete Criteria refuting C8: interests and notableEvents both set,
a non-empty minPrice, everything else absent. -/
def c8crit : Criteria :=
  { occasion := ""
    relationship := ""
    age := ""
    gender := ""
    interests := "golf"
    notableEvents := "retirement"
    minPrice := "10"
    maxPrice := "" }

/-- Counterexample to C8.  The claim asserts that in the card-message prompt
too, clauses appear in the order occasion, relationship, age, gender,
notableEvents, interests, price range, with every non-empty field
contributing one clause.  At `c8crit` the code emits the interests clause at
index 1 *before* the notable-events clause at index 2, and the non-empty
`minPrice` contributes no clause at all (the card prompt never consults the
price fields), so the claimed order and per-field contribution are violated
for the card-message prompt. -/
theorem c8_counterexample :
    buildCardPromptParts c8crit =
      ["Write a heartfelt and creative gift card message or a short poem.",
       "They are interested in golf.",
       "They have been busy with retirement."]
  ∧ c8crit.minPrice = "10"
  ∧ (buildCardPromptParts c8crit).get? 1 =
      some ("They are interested in " ++ c8crit.interests ++ ".")
  ∧ (buildCardPromptParts c8crit).get? 2 =
      some ("They have been busy with " ++ c8crit.notableEvents ++ ".") := by
  decide

/-- C8 as amended.  For every Criteria record, in the gift-suggestion prompt
each non-empty field contributes exactly one clause in the fixed order
occasion, relationship, age, gender, notableEvents, interests, price range;
in the card-message prompt the clauses follow the order occasion,
relationship, age, gender, interests, notableEvents and the price fields
contribute nothing; absent fields contribute no text at all. -/
theorem c8_amended_clause_structure (c : Criteria) :
    buildGiftPromptParts c =
      ["I need a gift suggestion for someone."]
        ++ clauseIfPresent c.occasion ("The occasion is " ++ c.occasion ++ ".")
        ++ clauseIfPresent c.relationship ("They are my " ++ c.relationship ++ ".")
        ++ clauseIfPresent c.age ("They are " ++ c.age ++ " years old.")
        ++ clauseIfPresent c.gender ("Their gender is " ++ c.gender ++ ".")
        ++ clauseIfPresent c.notableEvents
            ("Notable events in their life include " ++ c.notableEvents ++ ".")
        ++ clauseIfPresent c.interests
            ("They are interested in " ++ c.interests ++ ".")
        ++ pricePart c.minPrice c.maxPrice
  ∧ buildCardPromptParts c =
      ["Write a heartfelt and creative gift card message or a short poem."]
        ++ clauseIfPresent c.occasion ("The occasion is " ++ c.occasion ++ ".")
        ++ clauseIfPresent c.relationship
            ("The recipient is my " ++ c.relationship ++ ".")
        ++ clauseIfPresent c.age ("They are " ++ c.age ++ " years old.")
        ++ clauseIfPresent c.gender ("Their gender is " ++ c.gender ++ ".")
        ++ clauseIfPresent c.interests
            ("They are interested in " ++ c.interests ++ ".")
        ++ clauseIfPresent c.notableEvents
            ("They have been busy with " ++ c.notableEvents ++ ".") := by
  constructor
  · unfold buildGiftPromptParts clauseIfPresent
    split_ifs <;> simp
  · unfold buildCardPromptParts clauseIfPresent
    split_ifs <;> simp

end GiftFinder
